import Mathlib

/-!
INSIGHTLOG dashboard: the report-to-visualisation cycle.

A shallow embedding of `dashboard/static/dashboard.js` (`severityColor` and
`fetchData`) together with the properties of the refresh cycle.

Conventions of the embedding.

* The report is typed as its data model says: strings, numbers, arrays of
  records. A field that may be missing is an `Option`; `none` stands for an
  absent (`undefined` or `null`) value.
* The string built-ins of the JavaScript runtime that the script calls but
  does not define (`toUpperCase`, `toLowerCase`, `Date` parsing) are the
  fields of a `Host`; every general theorem holds for an arbitrary host.
  `refHost` is one executable host, used to evaluate the code on examples.
* The page is a `Dashboard` record: one field per element the script
  addresses by selector, one per canvas, one per chart variable. Console
  output and the static options of a chart are not part of it.
* The body of the `try` block is a sequence of steps; a step that throws
  leaves the effects of the earlier steps in place and ends the cycle.
-/

namespace InsightLog

/-! ## Runtime built-ins -/

/-- The built-ins of the JavaScript runtime used by the script.
`dateParse s` is `new Date(s).getTime()`, with `none` for `NaN`. -/
structure Host where
  toUpperCase : String → String
  toLowerCase : String → String
  dateParse : String → Option Int

/-- Upper-casing of the letters `a`-`z`; other characters are kept. -/
def asciiUpper (s : String) : String := String.mk (s.data.map Char.toUpper)

/-- Lower-casing of the letters `A`-`Z`; other characters are kept. -/
def asciiLower (s : String) : String := String.mk (s.data.map Char.toLower)

/-- Value of a decimal digit character. -/
def digitVal (c : Char) : Nat := c.toNat - 48

/-- Reads a run of decimal digits; `none` if some character is not a digit. -/
def readNat (cs : List Char) : Option Nat :=
  if cs.all Char.isDigit then some (cs.foldl (fun n c => 10 * n + digitVal c) 0) else none

/-- Days from 1970-01-01 to the given civil date (proleptic Gregorian). -/
def daysFromCivil (y m d : Nat) : Int :=
  let y1 : Int := if m ≤ 2 then (y : Int) - 1 else y
  let era : Int := y1 / 400
  let yoe : Int := y1 - era * 400
  let mp : Int := if m ≤ 2 then (m : Int) + 9 else (m : Int) - 3
  let doy : Int := (153 * mp + 2) / 5 + (d : Int) - 1
  let doe : Int := yoe * 365 + yoe / 4 - yoe / 100 + doy
  era * 146097 + doe - 719468

/-- Number of days of a month. -/
def daysInMonth (y m : Nat) : Nat :=
  if m = 2 then (if y % 4 = 0 ∧ (y % 100 ≠ 0 ∨ y % 400 = 0) then 29 else 28)
  else if m = 4 ∨ m = 6 ∨ m = 9 ∨ m = 11 then 30 else 31

/-- Parser for the UTC date-time form `YYYY-MM-DDTHH:mm:ssZ` of the
ECMAScript date-time string format, in milliseconds since the epoch. Every
other string is reported as not a date. -/
def isoDateParse (s : String) : Option Int :=
  match s.data with
  | [y1, y2, y3, y4, '-', m1, m2, '-', d1, d2, 'T', h1, h2, ':', n1, n2, ':', s1, s2, 'Z'] =>
    match readNat [y1, y2, y3, y4], readNat [m1, m2], readNat [d1, d2],
          readNat [h1, h2], readNat [n1, n2], readNat [s1, s2] with
    | some y, some m, some d, some hh, some mm, some ss =>
      if 1 ≤ m ∧ m ≤ 12 ∧ 1 ≤ d ∧ d ≤ daysInMonth y m ∧ hh ≤ 23 ∧ mm ≤ 59 ∧ ss ≤ 59 then
        some ((((daysFromCivil y m d * 24 + hh) * 60 + mm) * 60 + ss) * 1000)
      else none
    | _, _, _, _, _, _ => none
  | _ => none

/-- An executable host: ASCII case mapping and the UTC date-time parser. -/
def refHost : Host := ⟨asciiUpper, asciiLower, isoDateParse⟩

/-! ## The report document -/

/-- The expression `v || d` on an optional string: an absent value and the
empty string are falsy. -/
def orDefault (v : Option String) (d : String) : String :=
  match v with
  | none => d
  | some s => if s = "" then d else s

/-- Colour of a severity label. -/
def severityColor (h : Host) (sev : Option String) : String :=
  let sev := h.toUpperCase (orDefault sev "INFO")
  if sev = "CRITICAL" then "rgb(220,38,38)"
  else if sev = "ALERT" ∨ sev = "ERROR" then "rgb(249,115,22)"
  else if sev = "WARNING" then "rgb(234,179,8)"
  else if sev = "INFO" then "rgb(34,197,94)"
  else "rgb(100,116,139)"

/-- An alert of the report. -/
structure Alert where
  severity : Option String
  type : Option String
  message : Option String
deriving DecidableEq, Repr

/-- A correlation of the report. -/
structure Correlation where
  type : Option String
  message : Option String
deriving DecidableEq, Repr

/-- An event of the report's timeline. -/
structure TimelineEvent where
  timestamp : Option String
  type : Option String
  severity : Option String
  message : Option String
deriving DecidableEq, Repr

/-- The `summary` object; each pair list holds `[label, count]` items. -/
structure Summary where
  total_records : Option Nat
  top_ips : Option (List (String × Nat))
  status_counts : Option (List (String × Nat))
  top_urls : Option (List (String × Nat))
deriving DecidableEq, Repr

/-- The document served at `/data/report`. -/
structure Report where
  ok : Option Bool
  error : Option String
  generated_at : Option String
  summary : Option Summary
  alerts : Option (List Alert)
  correlations : Option (List Correlation)
  timeline : Option (List TimelineEvent)
deriving DecidableEq, Repr

/-- The expression `xs || []` on an optional array (every array is truthy). -/
def orEmpty {α : Type} (xs : Option (List α)) : List α :=
  match xs with
  | none => []
  | some l => l

/-- The expression `n || 0` on an optional number. -/
def orZero (n : Option Nat) : Nat :=
  match n with
  | none => 0
  | some k => k

/-! ## Plain objects used as tables -/

/-- The own properties of a plain object with numeric values, in the order
in which they were created. The inherited properties of an object literal
all have a lower-case letter in their name and are never met by the
upper-cased keys the script uses. -/
abbrev Obj := List (String × Nat)

/-- Property read `o[k]`. -/
def Obj.get (o : Obj) (k : String) : Option Nat :=
  match o with
  | [] => none
  | (k1, v1) :: rest => if k1 = k then some v1 else Obj.get rest k

/-- Property write `o[k] = v`: an existing property keeps its place, a new
one is created last. -/
def Obj.set (o : Obj) (k : String) (v : Nat) : Obj :=
  match o with
  | [] => [(k, v)]
  | (k1, v1) :: rest => if k1 = k then (k1, v) :: rest else (k1, v1) :: Obj.set rest k v

/-- The array index denoted by a property key: the key is the canonical
decimal numeral of an integer below `2^32 - 1`. -/
def arrayIndex (k : String) : Option Nat :=
  match k.data with
  | [] => none
  | c :: cs =>
    if (c :: cs).all Char.isDigit ∧ (c ≠ '0' ∨ cs = []) then
      let n := (c :: cs).foldl (fun n d => 10 * n + digitVal d) 0
      if n < 4294967295 then some n else none
    else none

/-- Whether a key is an array index. -/
def isArrayIndex (k : String) : Bool := (arrayIndex k).isSome

/-- Insertion of an index-keyed property into a list ascending by index. -/
def insertByIndex (p : String × Nat) (ps : List (String × Nat)) : List (String × Nat) :=
  match ps with
  | [] => [p]
  | q :: rest =>
    if orZero (arrayIndex p.1) ≤ orZero (arrayIndex q.1) then p :: q :: rest
    else q :: insertByIndex p rest

/-- Index-keyed properties in ascending numeric order. -/
def sortByIndex (ps : List (String × Nat)) : List (String × Nat) :=
  match ps with
  | [] => []
  | p :: rest => insertByIndex p (sortByIndex rest)

/-- Own property enumeration order: array-index keys ascending, then the
other keys in creation order. -/
def Obj.entries (o : Obj) : List (String × Nat) :=
  sortByIndex (o.filter (fun p => isArrayIndex p.1)) ++ o.filter (fun p => !isArrayIndex p.1)

/-- The array `Object.keys(o)`. -/
def Obj.keys (o : Obj) : List String := (Obj.entries o).map Prod.fst

/-- The array `Object.values(o)`. -/
def Obj.values (o : Obj) : List Nat := (Obj.entries o).map Prod.snd

/-! ## The page -/

/-- The value last assigned to an element's `textContent`. -/
inductive Text where
  | str (s : String)
  | num (n : Nat)
deriving DecidableEq, Repr

/-- A plot point of the timeline chart. -/
structure Point where
  x : Int
  y : Int
  r : Nat
  backgroundColor : String
  meta : TimelineEvent
deriving DecidableEq, Repr

/-- A bar or pie chart instance with its single dataset. `id` is the
number of chart instances constructed before it. -/
structure Chart where
  id : Nat
  type : String
  label : Option String
  labels : List String
  data : List Nat
deriving DecidableEq, Repr

/-- The bubble chart instance of the timeline with its single dataset. -/
structure TimelineChart where
  id : Nat
  data : List Point
deriving DecidableEq, Repr

/-- An entry of the alerts list: the values interpolated into its markup. -/
structure AlertEntry where
  color : String
  severity : Option String
  type : String
  message : String
deriving DecidableEq, Repr

/-- An entry of the correlations list. -/
structure CorrEntry where
  type : Option String
  message : Option String
deriving DecidableEq, Repr

/-- An entry of the recent-timeline list. -/
structure TimelineEntry where
  color : String
  severity : Option String
  timestamp : Option String
  type : Option String
  message : Option String
deriving DecidableEq, Repr

/-- The state the script reads and writes. An element field is `none`
when the selector matches nothing; a canvas field tells whether the canvas
exists; a chart field is the chart variable (`none` for `null`);
`chartsCreated` counts the chart instances constructed so far. -/
structure Dashboard where
  lastUpdated : Option Text
  totalRecords : Option Text
  activeAlerts : Option Text
  corrCount : Option Text
  ipsCanvas : Bool
  statusCanvas : Bool
  urlsCanvas : Bool
  sevCanvas : Bool
  timelineCanvas : Bool
  ipsChart : Option Chart
  statusChart : Option Chart
  urlsChart : Option Chart
  sevChart : Option Chart
  timelineChart : Option TimelineChart
  alertsList : Option (List AlertEntry)
  corrList : Option (List CorrEntry)
  timelineList : Option (List TimelineEntry)
  chartsCreated : Nat
deriving DecidableEq, Repr

/-- How a cycle ended: the page it leaves, and whether the body ran to its
end (or to its `return`) without throwing. -/
structure Outcome where
  state : Dashboard
  completed : Bool
deriving DecidableEq, Repr

/-- Sets the text of an element when it exists. -/
def safeSetText (el : Option Text) (text : Text) : Option Text :=
  match el with
  | some _ => some text
  | none => none

/-! ## The cycle -/

/-- The result of an HTTP request for the report. -/
inductive Response where
  | failed
  | malformed
  | json (data : Report)
deriving DecidableEq, Repr

/-- The create-or-update block of a bar or pie chart. With no instance yet,
the canvas is looked up (a missing canvas throws) and an instance is
constructed; otherwise the labels and the data of the instance are replaced.
Returns the instance and the new count of constructed instances. -/
def bindChart (canvas : Bool) (chart : Option Chart) (created : Nat) (type : String)
    (label : Option String) (labels : List String) (data : List Nat) : Option (Chart × Nat) :=
  match chart with
  | none => if canvas then some (⟨created, type, label, labels, data⟩, created + 1) else none
  | some c => some ({ c with labels := labels, data := data }, created)

/-- The create-or-update block of the timeline chart. -/
def bindTimelineChart (canvas : Bool) (chart : Option TimelineChart) (created : Nat)
    (points : List Point) : Option (TimelineChart × Nat) :=
  match chart with
  | none => if canvas then some (⟨created, points⟩, created + 1) else none
  | some c => some ({ c with data := points }, created)

/-- The reducer of the severity table: one more alert under its label. -/
def countSeverity (h : Host) (acc : Obj) (a : Alert) : Obj :=
  let s := h.toUpperCase (orDefault a.severity "UNKNOWN")
  Obj.set acc s (orZero (Obj.get acc s) + 1)

/-- The table `sevCounts` of the severity pie. -/
def sevCounts (h : Host) (alerts : List Alert) : Obj :=
  alerts.foldl (countSeverity h) []

/-- Array objects by reference: the object with reference `r` is item `r`
of the store. -/
abbrev Store (α : Type) := List (List α)

/-- The method `slice()` without arguments on the object `r`: a new array
object with the same items is allocated; returns the store and the
reference of the new object. -/
def Store.slice {α : Type} (σ : Store α) (r : Nat) : Store α × Nat :=
  (σ ++ [σ.getD r []], σ.length)

/-- The method `reverse()` on the object `r`: the items of that object are
reversed in place; returns the store and the reference `r` itself. -/
def Store.reverse {α : Type} (σ : Store α) (r : Nat) : Store α × Nat :=
  (σ.set r (σ.getD r []).reverse, r)

/-- The expression `arr.slice().reverse()`, with the receiver `arr` as
object 0 of a store. The first component is the receiver after the call,
the second the value of the expression. -/
def sliceReverse {α : Type} (arr : List α) : List α × List α :=
  let σ0 : Store α := [arr]
  let copied := Store.slice σ0 0
  let reversed := Store.reverse copied.1 copied.2
  (reversed.1.getD 0 [], reversed.1.getD reversed.2 [])

/-- The expression `arr.slice(-n)`: a copy of the last `n` items. -/
def sliceLast {α : Type} (n : Nat) (arr : List α) : List α :=
  arr.drop (arr.length - n)

/-- The entry appended to the alerts list for an alert. -/
def alertEntry (h : Host) (a : Alert) : AlertEntry :=
  ⟨severityColor h a.severity, a.severity, orDefault a.type "", orDefault a.message ""⟩

/-- The children of the alerts list after it is rebuilt. -/
def alertsEntries (h : Host) (alerts : List Alert) : List AlertEntry :=
  (sliceReverse alerts).2.foldl (fun node a => node ++ [alertEntry h a]) []

/-- The entry appended to the correlations list for a correlation. -/
def corrEntry (c : Correlation) : CorrEntry := ⟨c.type, c.message⟩

/-- The children of the correlations list after it is rebuilt. -/
def corrEntries (correlations : List Correlation) : List CorrEntry :=
  (sliceReverse correlations).2.foldl (fun node c => node ++ [corrEntry c]) []

/-- The fixed category list of the timeline's vertical axis. -/
def categories : List String := ["record", "alert", "burst", "plugin", "correlation"]

/-- The method `indexOf` of an array of strings: `-1` when not found. -/
def indexOf (xs : List String) (x : String) : Int :=
  match xs with
  | [] => -1
  | y :: ys => if y = x then 0 else (if indexOf ys x < 0 then -1 else indexOf ys x + 1)

/-- The callback of the loop that builds `points`: an event with a falsy
timestamp, or one whose timestamp is not a date, is skipped. -/
def pushPoint (h : Host) (points : List Point) (ev : TimelineEvent) : List Point :=
  match ev.timestamp with
  | none => points
  | some t =>
    if t = "" then points
    else
      match h.dateParse t with
      | none => points
      | some ts =>
        let ci := indexOf categories (h.toLowerCase (orDefault ev.type ""))
        let ci := if ci < 0 then 0 else ci
        points ++ [⟨ts, ci, 6, severityColor h ev.severity, ev⟩]

/-- The array `points` of the timeline chart. -/
def timelinePoints (h : Host) (timeline : List TimelineEvent) : List Point :=
  timeline.foldl (pushPoint h) []

/-- The entry appended to the recent-timeline list for an event. -/
def timelineEntry (h : Host) (ev : TimelineEvent) : TimelineEntry :=
  ⟨severityColor h ev.severity, ev.severity, ev.timestamp, ev.type, ev.message⟩

/-- The callback of the loop that fills the recent-timeline list: an event
with a falsy timestamp is skipped. -/
def appendTimelineItem (h : Host) (node : List TimelineEntry) (ev : TimelineEvent) :
    List TimelineEntry :=
  match ev.timestamp with
  | none => node
  | some t => if t = "" then node else node ++ [timelineEntry h ev]

/-- The children of the recent-timeline list after it is rebuilt. -/
def timelineEntries (h : Host) (timeline : List TimelineEvent) : List TimelineEntry :=
  (sliceLast 50 timeline).reverse.foldl (appendTimelineItem h) []

/-- Replaces the children of a list container when it exists. -/
def setChildren {α : Type} (node : Option (List α)) (children : List α) : Option (List α) :=
  match node with
  | some _ => some children
  | none => none

/-- The body of `fetchData` after the availability check. -/
def renderReport (h : Host) (st : Dashboard) (data : Report) : Outcome :=
  let st := { st with
    lastUpdated := safeSetText st.lastUpdated (.str (orDefault data.generated_at "-")) }
  match data.summary with
  | none => ⟨st, false⟩
  | some summary =>
  let st := { st with
    totalRecords := safeSetText st.totalRecords (.num (orZero summary.total_records)) }
  let st := { st with
    activeAlerts := safeSetText st.activeAlerts (.num (orEmpty data.alerts).length) }
  let st := { st with
    corrCount := safeSetText st.corrCount (.num (orEmpty data.correlations).length) }
  let topIps := orEmpty summary.top_ips
  match bindChart st.ipsCanvas st.ipsChart st.chartsCreated "bar" (some "Requests")
      (topIps.map Prod.fst) (topIps.map Prod.snd) with
  | none => ⟨st, false⟩
  | some (c, n) =>
  let st := { st with ipsChart := some c, chartsCreated := n }
  let sc := orEmpty summary.status_counts
  match bindChart st.statusCanvas st.statusChart st.chartsCreated "bar" (some "Count")
      (sc.map Prod.fst) (sc.map Prod.snd) with
  | none => ⟨st, false⟩
  | some (c, n) =>
  let st := { st with statusChart := some c, chartsCreated := n }
  let urls := orEmpty summary.top_urls
  match bindChart st.urlsCanvas st.urlsChart st.chartsCreated "bar" (some "Hits")
      (urls.map Prod.fst) (urls.map Prod.snd) with
  | none => ⟨st, false⟩
  | some (c, n) =>
  let st := { st with urlsChart := some c, chartsCreated := n }
  let alerts := orEmpty data.alerts
  let counts := sevCounts h alerts
  match bindChart st.sevCanvas st.sevChart st.chartsCreated "pie" none
      (Obj.keys counts) (Obj.values counts) with
  | none => ⟨st, false⟩
  | some (c, n) =>
  let st := { st with sevChart := some c, chartsCreated := n }
  let st := { st with alertsList := setChildren st.alertsList (alertsEntries h alerts) }
  let st := { st with
    corrList := setChildren st.corrList (corrEntries (orEmpty data.correlations)) }
  let timeline := orEmpty data.timeline
  let points := timelinePoints h timeline
  match bindTimelineChart st.timelineCanvas st.timelineChart st.chartsCreated points with
  | none => ⟨st, false⟩
  | some (c, n) =>
  let st := { st with timelineChart := some c, chartsCreated := n }
  let st := { st with timelineList := setChildren st.timelineList (timelineEntries h timeline) }
  ⟨st, true⟩

/-- One cycle of `fetchData` on the page `st`, given the result of the
request. A failed request and an unreadable body are caught: nothing is
written. A body with `ok === false` only sets the status text. -/
def fetchData (h : Host) (st : Dashboard) (res : Response) : Outcome :=
  match res with
  | .failed => ⟨st, false⟩
  | .malformed => ⟨st, false⟩
  | .json data =>
    if data.ok = some false then
      ⟨{ st with lastUpdated := safeSetText st.lastUpdated (.str "Waiting for report.json...") },
        true⟩
    else renderReport h st data

/-- A page with every element and canvas present and no chart constructed. -/
def freshPage : Dashboard :=
  { lastUpdated := some (.str "-"), totalRecords := some (.str "0"),
    activeAlerts := some (.str "0"), corrCount := some (.str "0"),
    ipsCanvas := true, statusCanvas := true, urlsCanvas := true, sevCanvas := true,
    timelineCanvas := true,
    ipsChart := none, statusChart := none, urlsChart := none, sevChart := none,
    timelineChart := none,
    alertsList := some [], corrList := some [], timelineList := some [],
    chartsCreated := 0 }

/-- A report with nothing but an empty summary object. -/
def emptyReport : Report :=
  { ok := none, error := none, generated_at := none,
    summary := some ⟨none, none, none, none⟩,
    alerts := none, correlations := none, timeline := none }

/-! ## Vocabulary of the properties -/

/-- The lookup table of severity colours, as the specification lists it. -/
def severityTable : List (String × String) :=
  [("CRITICAL", "rgb(220,38,38)"), ("ALERT", "rgb(249,115,22)"), ("ERROR", "rgb(249,115,22)"),
    ("WARNING", "rgb(234,179,8)"), ("INFO", "rgb(34,197,94)")]

/-- The severity labels that have a colour of their own. -/
def severityLabels : List String := ["CRITICAL", "ALERT", "ERROR", "WARNING", "INFO"]

/-- The default colour. -/
def grey : String := "rgb(100,116,139)"

/-- An event has a valid timestamp: it is present, not empty, and a date. -/
def validTimestamp (h : Host) (ev : TimelineEvent) : Bool :=
  match ev.timestamp with
  | none => false
  | some t => t ≠ "" && (h.dateParse t).isSome

/-- The label under which the severity table counts an alert. -/
def severityKey (h : Host) (a : Alert) : String :=
  h.toUpperCase (orDefault a.severity "UNKNOWN")

/-- The label of an alert as the specification words it: the upper-cased
severity, with UNKNOWN for an absent one. -/
def statedKey (h : Host) (a : Alert) : String :=
  match a.severity with
  | none => h.toUpperCase "UNKNOWN"
  | some s => h.toUpperCase s

/-- The list `labels` holds the distinct members of `sevs`, each once, in
the order of their first occurrence in `sevs`. -/
def InFirstOccurrenceOrder (sevs labels : List String) : Prop :=
  labels.Nodup ∧ (∀ x, x ∈ labels ↔ x ∈ sevs) ∧
    List.Pairwise (fun i j : Nat => i < j) (labels.map (fun x => sevs.indexOf x))

/-- A report with two alerts, of severities "high" and "1". -/
def numericReport : Report :=
  { emptyReport with alerts := some [⟨some "high", none, none⟩, ⟨some "1", none, none⟩] }

/-- The plot point pushed for an event, if any. -/
def plotPoint (h : Host) (ev : TimelineEvent) : Option Point :=
  (pushPoint h [] ev).head?

/-- The first four chart blocks cannot throw: each chart exists already or
its canvas is on the page. -/
def canDrawBars (st : Dashboard) : Bool :=
  (st.ipsChart.isSome || st.ipsCanvas) && (st.statusChart.isSome || st.statusCanvas) &&
    (st.urlsChart.isSome || st.urlsCanvas) && (st.sevChart.isSome || st.sevCanvas)

/-- No chart block can throw. -/
def canDraw (st : Dashboard) : Bool :=
  canDrawBars st && (st.timelineChart.isSome || st.timelineCanvas)

/-- An event with a date as timestamp. -/
def sampleEvent : TimelineEvent :=
  ⟨some "2024-01-01T00:00:00Z", some "Alert", some "critical", some "disk full"⟩

/-- An event whose timestamp is text that is not a date. -/
def garbageEvent : TimelineEvent := ⟨some "garbage", some "alert", some "info", some "m"⟩

/-- An event with timestamp `null`. -/
def nullEvent : TimelineEvent := ⟨none, some "alert", some "info", some "m"⟩

/-- The report in which every absent collection is replaced by the empty
array. -/
def withEmptyDefaults (data : Report) : Report :=
  { data with
    summary := data.summary.map (fun s =>
      { s with top_ips := some (orEmpty s.top_ips),
               status_counts := some (orEmpty s.status_counts),
               top_urls := some (orEmpty s.top_urls) })
    alerts := some (orEmpty data.alerts)
    correlations := some (orEmpty data.correlations)
    timeline := some (orEmpty data.timeline) }

/-- A report without a summary object: what an empty JSON object parses to. -/
def bareReport : Report :=
  { ok := none, error := none, generated_at := none, summary := none,
    alerts := none, correlations := none, timeline := none }

/-- A report signalling that no data is available yet. -/
def unavailableReport : Report :=
  { bareReport with ok := some false, error := some "not found" }

/-- The alert A of the examples. -/
def alertA : Alert := ⟨some "critical", some "A", some "first"⟩

/-- The alert B of the examples. -/
def alertB : Alert := ⟨some "warning", some "B", some "second"⟩

/-- The alert C of the examples: no severity and no message. -/
def alertC : Alert := ⟨none, some "C", none⟩

/-- A report with every collection filled. -/
def sampleReport : Report :=
  { ok := some true, error := none, generated_at := some "2024-01-01 00:00:00",
    summary := some ⟨some 12, some [("1.2.3.4", 10), ("5.6.7.8", 2)], some [("200", 11), ("404", 1)],
      some [("/", 7), ("/login", 5)]⟩,
    alerts := some [alertA, alertB, alertC],
    correlations := some [⟨some "burst", some "x"⟩, ⟨some "scan", some "y"⟩],
    timeline := some [sampleEvent, nullEvent] }

/-- The page after one cycle on `sampleReport`. -/
def busyPage : Dashboard := (fetchData refHost freshPage (.json sampleReport)).state

/-- A report whose timeline holds one event with an unparseable timestamp. -/
def garbageReport : Report :=
  { emptyReport with timeline := some [garbageEvent] }

/-- The event number `i` of a minute: its timestamp has `i` as seconds. -/
def eventAt (i : Nat) : TimelineEvent :=
  ⟨some (String.mk ("2024-01-01T00:00:".data ++ [Char.ofNat (48 + i / 10), Char.ofNat (48 + i % 10), 'Z'])),
    some "record", some "info", none⟩

/-- A report whose timeline holds sixty events with valid timestamps. -/
def sixtyReport : Report :=
  { emptyReport with timeline := some ((List.range 60).map eventAt) }

/-! ## Properties -/

theorem severityColor_none (h : Host) : severityColor h none = severityColor h (some "INFO") := by
  simp [severityColor, orDefault]

theorem severityColor_empty (h : Host) :
    severityColor h (some "") = severityColor h (some "INFO") := by
  simp [severityColor, orDefault]

/-- C2: for a non-empty severity whose upper-case form is a label of the
lookup table, `severityColor` returns the colour the table gives for that
label (CRITICAL red, ALERT and ERROR orange, WARNING yellow, INFO green);
an absent severity is looked up as INFO and gives green. -/
theorem severityColor_follows_table (h : Host) (hInfo : h.toUpperCase "INFO" = "INFO")
    (s label color : String) (hs : s ≠ "") (hl : h.toUpperCase s = label)
    (hrow : (label, color) ∈ severityTable) :
    severityColor h (some s) = color ∧
      severityColor h none = severityColor h (some "INFO") ∧
      severityColor h none = "rgb(34,197,94)" := by
  refine ⟨?_, severityColor_none h, ?_⟩
  · simp only [severityTable, List.mem_cons, Prod.mk.injEq, List.mem_singleton,
      List.not_mem_nil, or_false] at hrow
    rcases hrow with ⟨h1, h2⟩ | ⟨h1, h2⟩ | ⟨h1, h2⟩ | ⟨h1, h2⟩ | ⟨h1, h2⟩ <;>
      subst h1 <;> subst h2 <;> simp [severityColor, orDefault, hs, hl]
  · simp [severityColor, orDefault, hInfo]

theorem severityColor_follows_table_witness :
    (severityColor refHost (some "cRiTiCaL") = "rgb(220,38,38)" ∧
      severityColor refHost none = severityColor refHost (some "INFO") ∧
      severityColor refHost none = "rgb(34,197,94)") ∧
    (severityColor refHost (some "error") = "rgb(249,115,22)" ∧
      severityColor refHost none = severityColor refHost (some "INFO") ∧
      severityColor refHost none = "rgb(34,197,94)") :=
  ⟨severityColor_follows_table refHost (by decide) "cRiTiCaL" "CRITICAL" "rgb(220,38,38)"
      (by decide) (by decide) (by decide),
    severityColor_follows_table refHost (by decide) "error" "ERROR" "rgb(249,115,22)"
      (by decide) (by decide) (by decide)⟩

/-- C3 as stated fails: the empty string is not one of the five labels in
any letter case, yet `severityColor` gives it the colour of INFO, not grey. -/
theorem severityColor_empty_not_grey :
    refHost.toUpperCase "" ∉ severityLabels ∧
      severityColor refHost (some "") = "rgb(34,197,94)" ∧
      severityColor refHost (some "") ≠ grey := by
  decide

/-- C3 amended: every non-empty severity whose upper-case form is none of
CRITICAL, ALERT, ERROR, WARNING, INFO gets the default grey; an absent
severity, and likewise the empty string, gets the colour of "INFO". -/
theorem severityColor_default_grey (h : Host) (s : String) (hs : s ≠ "")
    (hl : h.toUpperCase s ∉ severityLabels) :
    severityColor h (some s) = grey ∧
      severityColor h none = severityColor h (some "INFO") ∧
      severityColor h (some "") = severityColor h (some "INFO") := by
  refine ⟨?_, severityColor_none h, severityColor_empty h⟩
  simp only [severityLabels, List.mem_cons, List.mem_singleton, List.not_mem_nil, or_false,
    not_or] at hl
  obtain ⟨h1, h2, h3, h4, h5⟩ := hl
  simp [severityColor, orDefault, hs, h1, h2, h3, h4, h5, grey]

theorem severityColor_default_grey_witness :
    severityColor refHost (some "Notice") = grey ∧
      severityColor refHost none = severityColor refHost (some "INFO") ∧
      severityColor refHost (some "") = severityColor refHost (some "INFO") :=
  severityColor_default_grey refHost "Notice" (by decide) (by decide)

/-- C9: a report with `ok` equal to `false` ends the cycle normally with
only the status text set to the waiting message; the other texts, the
canvases, the five chart variables with their data, the count of constructed
charts and the three lists are those of the prior page. -/
theorem fetchData_unavailable (h : Host) (st : Dashboard) (data : Report)
    (hok : data.ok = some false) :
    fetchData h st (.json data) =
      ⟨{ st with lastUpdated := safeSetText st.lastUpdated (.str "Waiting for report.json...") },
        true⟩ ∧
    (fetchData h st (.json data)).state.totalRecords = st.totalRecords ∧
    (fetchData h st (.json data)).state.activeAlerts = st.activeAlerts ∧
    (fetchData h st (.json data)).state.corrCount = st.corrCount ∧
    (fetchData h st (.json data)).state.ipsChart = st.ipsChart ∧
    (fetchData h st (.json data)).state.statusChart = st.statusChart ∧
    (fetchData h st (.json data)).state.urlsChart = st.urlsChart ∧
    (fetchData h st (.json data)).state.sevChart = st.sevChart ∧
    (fetchData h st (.json data)).state.timelineChart = st.timelineChart ∧
    (fetchData h st (.json data)).state.chartsCreated = st.chartsCreated ∧
    (fetchData h st (.json data)).state.alertsList = st.alertsList ∧
    (fetchData h st (.json data)).state.corrList = st.corrList ∧
    (fetchData h st (.json data)).state.timelineList = st.timelineList := by
  simp [fetchData, hok]

theorem pushPoint_eq (h : Host) (points : List Point) (ev : TimelineEvent) :
    pushPoint h points ev = points ++ (plotPoint h ev).toList := by
  unfold plotPoint pushPoint
  cases ev.timestamp with
  | none => simp
  | some t =>
    by_cases ht : t = ""
    · simp [ht]
    · cases hd : h.dateParse t <;> simp [ht, hd]

theorem foldl_pushPoint (h : Host) (timeline : List TimelineEvent) (acc : List Point) :
    timeline.foldl (pushPoint h) acc = acc ++ timeline.filterMap (plotPoint h) := by
  induction timeline generalizing acc with
  | nil => simp
  | cons ev rest ih =>
    rw [List.foldl_cons, ih, pushPoint_eq]
    cases hp : plotPoint h ev <;> simp [List.filterMap_cons, hp]

theorem timelinePoints_eq (h : Host) (timeline : List TimelineEvent) :
    timelinePoints h timeline = timeline.filterMap (plotPoint h) := by
  simp [timelinePoints, foldl_pushPoint]

theorem plotPoint_eq_none (h : Host) (ev : TimelineEvent) (hv : validTimestamp h ev = false) :
    plotPoint h ev = none := by
  unfold validTimestamp at hv
  unfold plotPoint pushPoint
  cases hts : ev.timestamp with
  | none => simp
  | some t =>
    rw [hts] at hv
    by_cases ht : t = ""
    · simp [ht]
    · cases hd : h.dateParse t <;> simp_all

theorem plotPoint_isSome (h : Host) (ev : TimelineEvent) (hv : validTimestamp h ev = true) :
    ∃ p, plotPoint h ev = some p ∧ p.meta = ev := by
  unfold validTimestamp at hv
  unfold plotPoint pushPoint
  cases hts : ev.timestamp with
  | none => simp [hts] at hv
  | some t =>
    rw [hts] at hv
    by_cases ht : t = ""
    · simp [ht] at hv
    · cases hd : h.dateParse t with
      | none => simp [hd] at hv
      | some ts => simp [ht, hd]

theorem plotPoint_meta (h : Host) (ev : TimelineEvent) (p : Point)
    (hp : plotPoint h ev = some p) :
    p.meta = ev ∧
      p.y = (if indexOf categories (h.toLowerCase (orDefault ev.type "")) < 0 then 0
        else indexOf categories (h.toLowerCase (orDefault ev.type ""))) := by
  unfold plotPoint pushPoint at hp
  cases hts : ev.timestamp with
  | none => simp [hts] at hp
  | some t =>
    rw [hts] at hp
    by_cases ht : t = ""
    · simp [ht] at hp
    · cases hd : h.dateParse t with
      | none => simp [ht, hd] at hp
      | some ts =>
        simp [ht, hd] at hp
        subst hp
        exact ⟨rfl, rfl⟩

theorem indexOf_categories (t : String) :
    (∀ i : Nat, categories[i]? = some t → indexOf categories t = i) ∧
      (t ∉ categories → indexOf categories t = -1) := by
  constructor
  · intro i hi
    match i with
    | 0 => simp [categories] at hi; subst hi; decide
    | 1 => simp [categories] at hi; subst hi; decide
    | 2 => simp [categories] at hi; subst hi; decide
    | 3 => simp [categories] at hi; subst hi; decide
    | 4 => simp [categories] at hi; subst hi; decide
    | n + 5 => simp [categories] at hi
  · intro hni
    simp only [categories, List.mem_cons, List.mem_singleton, List.not_mem_nil, or_false,
      not_or] at hni
    obtain ⟨h1, h2, h3, h4, h5⟩ := hni
    simp [categories, indexOf, Ne.symm h1, Ne.symm h2, Ne.symm h3, Ne.symm h4, Ne.symm h5]

theorem orDefault_some_empty (t : String) : orDefault (some t) "" = t := by
  unfold orDefault
  by_cases ht : t = ""
  · simp [ht]
  · simp [ht]

/-- C4: an event of the timeline with a valid timestamp has a plot point,
and the `y` of its plot point is the position of its lower-cased type in
`[record, alert, burst, plugin, correlation]` when the type is there (record
0, alert 1, burst 2, plugin 3, correlation 4), and 0 when it is not there or
the type is absent; so `y` lies between 0 and 4. -/
theorem timeline_point_category (h : Host) (hlow : h.toLowerCase "" = "")
    (timeline : List TimelineEvent) (ev : TimelineEvent) (hmem : ev ∈ timeline)
    (hvalid : validTimestamp h ev = true) :
    (∃ p ∈ timelinePoints h timeline, p.meta = ev) ∧
      ∀ p ∈ timelinePoints h timeline, p.meta = ev →
        (∀ t, ev.type = some t →
          (∀ i : Nat, ["record", "alert", "burst", "plugin", "correlation"][i]? =
            some (h.toLowerCase t) → p.y = i) ∧
          (h.toLowerCase t = "record" → p.y = 0) ∧
          (h.toLowerCase t = "alert" → p.y = 1) ∧
          (h.toLowerCase t = "burst" → p.y = 2) ∧
          (h.toLowerCase t = "plugin" → p.y = 3) ∧
          (h.toLowerCase t = "correlation" → p.y = 4) ∧
          (h.toLowerCase t ∉ ["record", "alert", "burst", "plugin", "correlation"] →
            p.y = 0)) ∧
        (ev.type = none → p.y = 0) ∧
        0 ≤ p.y ∧ p.y ≤ 4 := by
  rw [timelinePoints_eq]
  constructor
  · obtain ⟨p, hp, hm⟩ := plotPoint_isSome h ev hvalid
    exact ⟨p, List.mem_filterMap.mpr ⟨ev, hmem, hp⟩, hm⟩
  · intro p hp hm
    obtain ⟨ev1, _, hp1⟩ := List.mem_filterMap.mp hp
    obtain ⟨hm1, hy⟩ := plotPoint_meta h ev1 p hp1
    have hev : ev1 = ev := by rw [← hm1, hm]
    subst hev
    have hidx := indexOf_categories (h.toLowerCase (orDefault ev1.type ""))
    have hnot : h.toLowerCase (orDefault ev1.type "") ∉
        ["record", "alert", "burst", "plugin", "correlation"] → p.y = 0 := by
      intro hni
      rw [hy, hidx.2 hni]
      simp
    have hin : ∀ i : Nat, ["record", "alert", "burst", "plugin", "correlation"][i]? =
        some (h.toLowerCase (orDefault ev1.type "")) → p.y = i := by
      intro i hi
      rw [hy, hidx.1 i hi]
      simp
    refine ⟨?_, ?_, ?_⟩
    · intro t ht
      rw [ht, orDefault_some_empty] at hin hnot
      refine ⟨hin, ?_, ?_, ?_, ?_, ?_, hnot⟩
      · intro e
        exact hin 0 (by rw [e]; rfl)
      · intro e
        exact hin 1 (by rw [e]; rfl)
      · intro e
        exact hin 2 (by rw [e]; rfl)
      · intro e
        exact hin 3 (by rw [e]; rfl)
      · intro e
        exact hin 4 (by rw [e]; rfl)
    · intro hnone
      apply hnot
      rw [hnone]
      simp [orDefault, hlow]
    · by_cases hc : h.toLowerCase (orDefault ev1.type "") ∈
          ["record", "alert", "burst", "plugin", "correlation"]
      · obtain ⟨i, hi⟩ := List.getElem?_of_mem hc
        have hlt : i < 5 := by
          by_contra hge
          rw [List.getElem?_eq_none (by simp only [List.length_cons, List.length_nil]; omega)]
            at hi
          simp at hi
        rw [hin i hi]
        omega
      · rw [hnot hc]
        omega

theorem timeline_point_category_witness :
    (∃ p ∈ timelinePoints refHost
        [⟨none, some "burst", some "info", none⟩,
          ⟨some "2024-01-01T00:00:00Z", some "Alert", some "critical", some "disk full"⟩,
          ⟨some "2024-01-01T00:00:01Z", some "CORRELATION", none, none⟩,
          ⟨some "2024-01-01T00:00:02Z", some "login", none, none⟩,
          ⟨some "2024-01-01T00:00:03Z", none, none, none⟩],
        p.meta = ⟨some "2024-01-01T00:00:00Z", some "Alert", some "critical", some "disk full"⟩ ∧
          p.y = 1) ∧
      (∃ p ∈ timelinePoints refHost
        [⟨none, some "burst", some "info", none⟩,
          ⟨some "2024-01-01T00:00:00Z", some "Alert", some "critical", some "disk full"⟩,
          ⟨some "2024-01-01T00:00:01Z", some "CORRELATION", none, none⟩,
          ⟨some "2024-01-01T00:00:02Z", some "login", none, none⟩,
          ⟨some "2024-01-01T00:00:03Z", none, none, none⟩],
        p.meta = ⟨some "2024-01-01T00:00:01Z", some "CORRELATION", none, none⟩ ∧ p.y = 4) ∧
      (∃ p ∈ timelinePoints refHost
        [⟨none, some "burst", some "info", none⟩,
          ⟨some "2024-01-01T00:00:00Z", some "Alert", some "critical", some "disk full"⟩,
          ⟨some "2024-01-01T00:00:01Z", some "CORRELATION", none, none⟩,
          ⟨some "2024-01-01T00:00:02Z", some "login", none, none⟩,
          ⟨some "2024-01-01T00:00:03Z", none, none, none⟩],
        p.meta = ⟨some "2024-01-01T00:00:02Z", some "login", none, none⟩ ∧ p.y = 0) ∧
      (∃ p ∈ timelinePoints refHost
        [⟨none, some "burst", some "info", none⟩,
          ⟨some "2024-01-01T00:00:00Z", some "Alert", some "critical", some "disk full"⟩,
          ⟨some "2024-01-01T00:00:01Z", some "CORRELATION", none, none⟩,
          ⟨some "2024-01-01T00:00:02Z", some "login", none, none⟩,
          ⟨some "2024-01-01T00:00:03Z", none, none, none⟩],
        p.meta = ⟨some "2024-01-01T00:00:03Z", none, none, none⟩ ∧ p.y = 0) ∧
      (timelinePoints refHost
        [⟨none, some "burst", some "info", none⟩,
          ⟨some "2024-01-01T00:00:00Z", some "Alert", some "critical", some "disk full"⟩,
          ⟨some "2024-01-01T00:00:01Z", some "CORRELATION", none, none⟩,
          ⟨some "2024-01-01T00:00:02Z", some "login", none, none⟩,
          ⟨some "2024-01-01T00:00:03Z", none, none, none⟩]).map (fun p => p.y) =
        [1, 4, 0, 0] := by
  refine ⟨?_, ?_, ?_, ?_, by decide⟩
  · obtain ⟨⟨p, hp, hm⟩, hall⟩ := timeline_point_category refHost (by decide)
      [⟨none, some "burst", some "info", none⟩,
        ⟨some "2024-01-01T00:00:00Z", some "Alert", some "critical", some "disk full"⟩,
        ⟨some "2024-01-01T00:00:01Z", some "CORRELATION", none, none⟩,
        ⟨some "2024-01-01T00:00:02Z", some "login", none, none⟩,
        ⟨some "2024-01-01T00:00:03Z", none, none, none⟩]
      ⟨some "2024-01-01T00:00:00Z", some "Alert", some "critical", some "disk full"⟩
      (by decide) (by decide)
    exact ⟨p, hp, hm, ((hall p hp hm).1 "Alert" rfl).2.2.1 (by decide)⟩
  · obtain ⟨⟨p, hp, hm⟩, hall⟩ := timeline_point_category refHost (by decide)
      [⟨none, some "burst", some "info", none⟩,
        ⟨some "2024-01-01T00:00:00Z", some "Alert", some "critical", some "disk full"⟩,
        ⟨some "2024-01-01T00:00:01Z", some "CORRELATION", none, none⟩,
        ⟨some "2024-01-01T00:00:02Z", some "login", none, none⟩,
        ⟨some "2024-01-01T00:00:03Z", none, none, none⟩]
      ⟨some "2024-01-01T00:00:01Z", some "CORRELATION", none, none⟩
      (by decide) (by decide)
    exact ⟨p, hp, hm, ((hall p hp hm).1 "CORRELATION" rfl).2.2.2.2.2.1 (by decide)⟩
  · obtain ⟨⟨p, hp, hm⟩, hall⟩ := timeline_point_category refHost (by decide)
      [⟨none, some "burst", some "info", none⟩,
        ⟨some "2024-01-01T00:00:00Z", some "Alert", some "critical", some "disk full"⟩,
        ⟨some "2024-01-01T00:00:01Z", some "CORRELATION", none, none⟩,
        ⟨some "2024-01-01T00:00:02Z", some "login", none, none⟩,
        ⟨some "2024-01-01T00:00:03Z", none, none, none⟩]
      ⟨some "2024-01-01T00:00:02Z", some "login", none, none⟩
      (by decide) (by decide)
    exact ⟨p, hp, hm, ((hall p hp hm).1 "login" rfl).2.2.2.2.2.2 (by decide)⟩
  · obtain ⟨⟨p, hp, hm⟩, hall⟩ := timeline_point_category refHost (by decide)
      [⟨none, some "burst", some "info", none⟩,
        ⟨some "2024-01-01T00:00:00Z", some "Alert", some "critical", some "disk full"⟩,
        ⟨some "2024-01-01T00:00:01Z", some "CORRELATION", none, none⟩,
        ⟨some "2024-01-01T00:00:02Z", some "login", none, none⟩,
        ⟨some "2024-01-01T00:00:03Z", none, none, none⟩]
      ⟨some "2024-01-01T00:00:03Z", none, none, none⟩
      (by decide) (by decide)
    exact ⟨p, hp, hm, (hall p hp hm).2.1 rfl⟩

theorem safeSetText_twice (el : Option Text) (t : Text) :
    safeSetText (safeSetText el t) t = safeSetText el t := by
  cases el <;> rfl

theorem setChildren_twice {α : Type} (node : Option (List α)) (l : List α) :
    setChildren (setChildren node l) l = setChildren node l := by
  cases node <;> rfl

theorem bindChart_again {canvas : Bool} {chart : Option Chart} {created : Nat}
    {type : String} {label : Option String} {labels : List String} {data : List Nat}
    {c : Chart} {n : Nat}
    (hb : bindChart canvas chart created type label labels data = some (c, n))
    (canvas1 : Bool) (m : Nat) (type1 : String) (label1 : Option String) :
    bindChart canvas1 (some c) m type1 label1 labels data = some (c, m) := by
  unfold bindChart at hb
  cases chart with
  | none =>
    cases canvas <;> simp at hb
    obtain ⟨hc, _⟩ := hb
    subst hc
    rfl
  | some c0 =>
    simp at hb
    obtain ⟨hc, _⟩ := hb
    subst hc
    rfl

theorem bindTimelineChart_again {canvas : Bool} {chart : Option TimelineChart} {created : Nat}
    {points : List Point} {c : TimelineChart} {n : Nat}
    (hb : bindTimelineChart canvas chart created points = some (c, n))
    (canvas1 : Bool) (m : Nat) :
    bindTimelineChart canvas1 (some c) m points = some (c, m) := by
  unfold bindTimelineChart at hb
  cases chart with
  | none =>
    cases canvas <;> simp at hb
    obtain ⟨hc, _⟩ := hb
    subst hc
    rfl
  | some c0 =>
    simp at hb
    obtain ⟨hc, _⟩ := hb
    subst hc
    rfl

theorem renderReport_spec (h : Host) (st : Dashboard) (data : Report)
    (hc : (renderReport h st data).completed = true) :
    ∃ s c1 n1 c2 n2 c3 n3 c4 n4 c5 n5,
      data.summary = some s ∧
      bindChart st.ipsCanvas st.ipsChart st.chartsCreated "bar" (some "Requests")
        ((orEmpty s.top_ips).map Prod.fst) ((orEmpty s.top_ips).map Prod.snd) = some (c1, n1) ∧
      bindChart st.statusCanvas st.statusChart n1 "bar" (some "Count")
        ((orEmpty s.status_counts).map Prod.fst) ((orEmpty s.status_counts).map Prod.snd)
          = some (c2, n2) ∧
      bindChart st.urlsCanvas st.urlsChart n2 "bar" (some "Hits")
        ((orEmpty s.top_urls).map Prod.fst) ((orEmpty s.top_urls).map Prod.snd) = some (c3, n3) ∧
      bindChart st.sevCanvas st.sevChart n3 "pie" none
        (Obj.keys (sevCounts h (orEmpty data.alerts)))
        (Obj.values (sevCounts h (orEmpty data.alerts))) = some (c4, n4) ∧
      bindTimelineChart st.timelineCanvas st.timelineChart n4
        (timelinePoints h (orEmpty data.timeline)) = some (c5, n5) ∧
      renderReport h st data =
        ⟨{ lastUpdated := safeSetText st.lastUpdated (.str (orDefault data.generated_at "-")),
           totalRecords := safeSetText st.totalRecords (.num (orZero s.total_records)),
           activeAlerts := safeSetText st.activeAlerts (.num (orEmpty data.alerts).length),
           corrCount := safeSetText st.corrCount (.num (orEmpty data.correlations).length),
           ipsCanvas := st.ipsCanvas, statusCanvas := st.statusCanvas,
           urlsCanvas := st.urlsCanvas, sevCanvas := st.sevCanvas,
           timelineCanvas := st.timelineCanvas,
           ipsChart := some c1, statusChart := some c2, urlsChart := some c3,
           sevChart := some c4, timelineChart := some c5,
           alertsList := setChildren st.alertsList (alertsEntries h (orEmpty data.alerts)),
           corrList := setChildren st.corrList (corrEntries (orEmpty data.correlations)),
           timelineList :=
             setChildren st.timelineList (timelineEntries h (orEmpty data.timeline)),
           chartsCreated := n5 }, true⟩ := by
  unfold renderReport at hc ⊢
  cases hs : data.summary with
  | none => simp [hs] at hc
  | some s =>
    simp only [hs] at hc ⊢
    cases hb1 : bindChart st.ipsCanvas st.ipsChart st.chartsCreated "bar" (some "Requests")
        ((orEmpty s.top_ips).map Prod.fst) ((orEmpty s.top_ips).map Prod.snd) with
    | none => simp [hb1] at hc
    | some r1 =>
      obtain ⟨c1, n1⟩ := r1
      simp only [hb1] at hc ⊢
      cases hb2 : bindChart st.statusCanvas st.statusChart n1 "bar" (some "Count")
          ((orEmpty s.status_counts).map Prod.fst) ((orEmpty s.status_counts).map Prod.snd) with
      | none => simp [hb2] at hc
      | some r2 =>
        obtain ⟨c2, n2⟩ := r2
        simp only [hb2] at hc ⊢
        cases hb3 : bindChart st.urlsCanvas st.urlsChart n2 "bar" (some "Hits")
            ((orEmpty s.top_urls).map Prod.fst) ((orEmpty s.top_urls).map Prod.snd) with
        | none => simp [hb3] at hc
        | some r3 =>
          obtain ⟨c3, n3⟩ := r3
          simp only [hb3] at hc ⊢
          cases hb4 : bindChart st.sevCanvas st.sevChart n3 "pie" none
              (Obj.keys (sevCounts h (orEmpty data.alerts)))
              (Obj.values (sevCounts h (orEmpty data.alerts))) with
          | none => simp [hb4] at hc
          | some r4 =>
            obtain ⟨c4, n4⟩ := r4
            simp only [hb4] at hc ⊢
            cases hb5 : bindTimelineChart st.timelineCanvas st.timelineChart n4
                (timelinePoints h (orEmpty data.timeline)) with
            | none => simp [hb5] at hc
            | some r5 =>
              obtain ⟨c5, n5⟩ := r5
              simp only [hb5]
              exact ⟨s, c1, n1, c2, n2, c3, n3, c4, n4, c5, n5, rfl, hb1, hb2, hb3, hb4, hb5, rfl⟩

theorem renderReport_idem (h : Host) (st : Dashboard) (data : Report)
    (hc : (renderReport h st data).completed = true) :
    renderReport h (renderReport h st data).state data = renderReport h st data := by
  obtain ⟨s, c1, n1, c2, n2, c3, n3, c4, n4, c5, n5, hs, hb1, hb2, hb3, hb4, hb5, heq⟩ :=
    renderReport_spec h st data hc
  rw [heq]
  simp only [renderReport, hs, bindChart_again hb1, bindChart_again hb2, bindChart_again hb3,
    bindChart_again hb4, bindTimelineChart_again hb5, safeSetText_twice, setChildren_twice]

theorem renderReport_completed (h : Host) (st : Dashboard) (data : Report) (s : Summary)
    (hs : data.summary = some s) (hd : canDraw st = true) :
    (renderReport h st data).completed = true := by
  obtain ⟨lu, tr, aa, cc, c1, c2, c3, c4, c5, k1, k2, k3, k4, k5, l1, l2, l3, n⟩ := st
  cases k1 <;> cases k2 <;> cases k3 <;> cases k4 <;> cases k5 <;>
    simp_all [renderReport, bindChart, bindTimelineChart, canDraw, canDrawBars]

theorem fetchData_json (h : Host) (st : Dashboard) (data : Report) (hok : data.ok ≠ some false) :
    fetchData h st (.json data) = renderReport h st data := by
  simp [fetchData, hok]

/-- C10: when a cycle on a fetched report runs to its end, a second cycle on
the same report, started from the page the first one left, ends the same way
and leaves that very page: the same texts, the same five chart instances
(same identity, labels, values, points), no further chart constructed, and
the same three lists. -/
theorem fetchData_idempotent (h : Host) (st : Dashboard) (data : Report)
    (hc : (fetchData h st (.json data)).completed = true) :
    fetchData h (fetchData h st (.json data)).state (.json data) = fetchData h st (.json data) ∧
      (fetchData h (fetchData h st (.json data)).state (.json data)).state.chartsCreated =
        (fetchData h st (.json data)).state.chartsCreated := by
  have key : fetchData h (fetchData h st (.json data)).state (.json data) =
      fetchData h st (.json data) := by
    by_cases hok : data.ok = some false
    · simp only [fetchData, hok, if_true, safeSetText_twice]
    · rw [fetchData_json h st data hok] at hc ⊢
      rw [fetchData_json h _ data hok]
      exact renderReport_idem h st data hc
  exact ⟨key, by rw [key]⟩

theorem fetchData_idempotent_witness :
    fetchData refHost (fetchData refHost freshPage (.json sampleReport)).state (.json sampleReport)
        = fetchData refHost freshPage (.json sampleReport) ∧
      (fetchData refHost (fetchData refHost freshPage (.json sampleReport)).state
          (.json sampleReport)).state.chartsCreated =
        (fetchData refHost freshPage (.json sampleReport)).state.chartsCreated :=
  fetchData_idempotent refHost freshPage sampleReport (by decide)

theorem fetchData_unavailable_witness :
    unavailableReport.ok = some false ∧
      fetchData refHost busyPage (.json unavailableReport) =
        ⟨{ busyPage with lastUpdated := some (.str "Waiting for report.json...") }, true⟩ ∧
      (fetchData refHost busyPage (.json unavailableReport)).state.ipsChart =
        some ⟨0, "bar", some "Requests", ["1.2.3.4", "5.6.7.8"], [10, 2]⟩ :=
  ⟨rfl, (fetchData_unavailable refHost busyPage unavailableReport rfl).1,
    ((fetchData_unavailable refHost busyPage unavailableReport rfl).2.2.2.2.1).trans (by decide)⟩

theorem bindChart_some (canvas : Bool) (chart : Option Chart) (created : Nat) (type : String)
    (label : Option String) (labels : List String) (data : List Nat)
    (hd : (chart.isSome || canvas) = true) :
    ∃ c n, bindChart canvas chart created type label labels data = some (c, n) ∧
      c.labels = labels ∧ c.data = data := by
  cases chart with
  | none =>
    simp at hd
    subst hd
    exact ⟨⟨created, type, label, labels, data⟩, created + 1, rfl, rfl, rfl⟩
  | some c0 => exact ⟨{ c0 with labels := labels, data := data }, created, rfl, rfl, rfl⟩

theorem bindChart_labels {canvas : Bool} {chart : Option Chart} {created : Nat} {type : String}
    {label : Option String} {labels : List String} {data : List Nat} {c : Chart} {n : Nat}
    (hb : bindChart canvas chart created type label labels data = some (c, n)) :
    c.labels = labels ∧ c.data = data := by
  unfold bindChart at hb
  cases chart with
  | none =>
    cases canvas <;> simp at hb
    obtain ⟨hc, _⟩ := hb
    subst hc
    exact ⟨rfl, rfl⟩
  | some c0 =>
    simp at hb
    obtain ⟨hc, _⟩ := hb
    subst hc
    exact ⟨rfl, rfl⟩

theorem bindTimelineChart_data {canvas : Bool} {chart : Option TimelineChart} {created : Nat}
    {points : List Point} {c : TimelineChart} {n : Nat}
    (hb : bindTimelineChart canvas chart created points = some (c, n)) :
    c.data = points := by
  unfold bindTimelineChart at hb
  cases chart with
  | none =>
    cases canvas <;> simp at hb
    obtain ⟨hc, _⟩ := hb
    subst hc
    rfl
  | some c0 =>
    simp at hb
    obtain ⟨hc, _⟩ := hb
    subst hc
    rfl

/-- When the first four chart blocks cannot throw, the severity pie and the
alerts and correlations lists are written, whatever happens afterwards. -/
theorem renderReport_bars (h : Host) (st : Dashboard) (data : Report) (s : Summary)
    (hs : data.summary = some s) (hd : canDrawBars st = true) :
    (∃ c, (renderReport h st data).state.sevChart = some c ∧
        c.labels = Obj.keys (sevCounts h (orEmpty data.alerts)) ∧
        c.data = Obj.values (sevCounts h (orEmpty data.alerts))) ∧
      (renderReport h st data).state.alertsList =
        setChildren st.alertsList (alertsEntries h (orEmpty data.alerts)) ∧
      (renderReport h st data).state.corrList =
        setChildren st.corrList (corrEntries (orEmpty data.correlations)) := by
  simp only [canDrawBars, Bool.and_eq_true] at hd
  obtain ⟨⟨⟨h1, h2⟩, h3⟩, h4⟩ := hd
  obtain ⟨c1, n1, hb1, -, -⟩ := bindChart_some st.ipsCanvas st.ipsChart st.chartsCreated "bar"
    (some "Requests") ((orEmpty s.top_ips).map Prod.fst) ((orEmpty s.top_ips).map Prod.snd) h1
  obtain ⟨c2, n2, hb2, -, -⟩ := bindChart_some st.statusCanvas st.statusChart n1 "bar"
    (some "Count") ((orEmpty s.status_counts).map Prod.fst)
    ((orEmpty s.status_counts).map Prod.snd) h2
  obtain ⟨c3, n3, hb3, -, -⟩ := bindChart_some st.urlsCanvas st.urlsChart n2 "bar"
    (some "Hits") ((orEmpty s.top_urls).map Prod.fst) ((orEmpty s.top_urls).map Prod.snd) h3
  obtain ⟨c4, n4, hb4, hl4, hv4⟩ := bindChart_some st.sevCanvas st.sevChart n3 "pie" none
    (Obj.keys (sevCounts h (orEmpty data.alerts)))
    (Obj.values (sevCounts h (orEmpty data.alerts))) h4
  unfold renderReport
  simp only [hs, hb1, hb2, hb3, hb4]
  cases bindTimelineChart st.timelineCanvas st.timelineChart n4
      (timelinePoints h (orEmpty data.timeline)) with
  | none => exact ⟨⟨c4, rfl, hl4, hv4⟩, rfl, rfl⟩
  | some r5 => exact ⟨⟨c4, rfl, hl4, hv4⟩, rfl, rfl⟩

theorem foldl_snoc_map {α β : Type} (f : α → β) (l : List α) (acc : List β) :
    l.foldl (fun node a => node ++ [f a]) acc = acc ++ l.map f := by
  induction l generalizing acc with
  | nil => simp
  | cons a rest ih => simp [ih]

theorem sliceReverse_eq {α : Type} (arr : List α) : sliceReverse arr = (arr, arr.reverse) := by
  simp [sliceReverse, Store.slice, Store.reverse]

/-- Without the copy, `reverse()` reorders the receiver itself. -/
theorem Store.reverse_in_place {α : Type} (arr : List α) :
    (Store.reverse [arr] 0).1.getD 0 [] = arr.reverse := by
  simp [Store.reverse]

theorem alertsEntries_eq (h : Host) (alerts : List Alert) :
    alertsEntries h alerts = alerts.reverse.map (alertEntry h) := by
  simp only [alertsEntries, sliceReverse_eq, foldl_snoc_map, List.nil_append]

theorem corrEntries_eq (correlations : List Correlation) :
    corrEntries correlations = correlations.reverse.map corrEntry := by
  simp only [corrEntries, sliceReverse_eq, foldl_snoc_map, List.nil_append]

theorem orDefault_eq_getD (v : Option String) : orDefault v "" = v.getD "" := by
  cases v with
  | none => rfl
  | some t => simp [orDefault_some_empty]

/-- C6: a cycle on a report with alerts array `alerts` and correlations
array `correlations` replaces the children of the alerts list by one entry
per alert and those of the correlations list by one entry per correlation,
each in the reverse of the order of the array; an alert's entry shows its
severity in the severity's colour, its type and its message (empty text for
an absent one), a correlation's entry its type and message. The two arrays
themselves keep their order: only a copy is reversed. -/
theorem lists_rendered_in_reverse (h : Host) (st : Dashboard) (data : Report) (s : Summary)
    (alerts : List Alert) (correlations : List Correlation)
    (oldAlerts : List AlertEntry) (oldCorrs : List CorrEntry)
    (hok : data.ok ≠ some false) (hs : data.summary = some s) (hd : canDrawBars st = true)
    (hA : st.alertsList = some oldAlerts) (hC : st.corrList = some oldCorrs)
    (hal : data.alerts = some alerts) (hco : data.correlations = some correlations) :
    (fetchData h st (.json data)).state.alertsList =
        some (alerts.reverse.map (fun a =>
          (⟨severityColor h a.severity, a.severity, a.type.getD "", a.message.getD ""⟩ :
            AlertEntry))) ∧
      (fetchData h st (.json data)).state.corrList =
        some (correlations.reverse.map (fun c => (⟨c.type, c.message⟩ : CorrEntry))) ∧
      (sliceReverse alerts).1 = alerts ∧
      (sliceReverse correlations).1 = correlations := by
  rw [fetchData_json h st data hok]
  obtain ⟨-, hal1, hco1⟩ := renderReport_bars h st data s hs hd
  rw [hal1, hco1, hA, hC, alertsEntries_eq, corrEntries_eq, hal, hco, sliceReverse_eq,
    sliceReverse_eq]
  refine ⟨?_, rfl, rfl, rfl⟩
  simp only [setChildren, orEmpty]
  congr 1
  apply List.map_congr_left
  intro a _
  simp only [alertEntry, orDefault_eq_getD]

theorem lists_rendered_in_reverse_witness :
    (fetchData refHost
        { freshPage with
          alertsList := some [⟨"rgb(100,116,139)", some "old", "Z", "stale"⟩],
          corrList := some [⟨some "old", some "stale"⟩] }
        (.json { emptyReport with
          alerts := some [⟨some "critical", some "A", some "first"⟩,
            ⟨some "warning", some "B", some "second"⟩, ⟨none, some "C", none⟩],
          correlations := some [⟨some "burst", some "x"⟩, ⟨some "scan", some "y"⟩] })).state.alertsList =
        some [⟨"rgb(34,197,94)", none, "C", ""⟩,
          ⟨"rgb(234,179,8)", some "warning", "B", "second"⟩,
          ⟨"rgb(220,38,38)", some "critical", "A", "first"⟩] ∧
      (fetchData refHost
        { freshPage with
          alertsList := some [⟨"rgb(100,116,139)", some "old", "Z", "stale"⟩],
          corrList := some [⟨some "old", some "stale"⟩] }
        (.json { emptyReport with
          alerts := some [⟨some "critical", some "A", some "first"⟩,
            ⟨some "warning", some "B", some "second"⟩, ⟨none, some "C", none⟩],
          correlations := some [⟨some "burst", some "x"⟩, ⟨some "scan", some "y"⟩] })).state.corrList =
        some [⟨some "scan", some "y"⟩, ⟨some "burst", some "x"⟩] ∧
      (sliceReverse [(⟨some "critical", some "A", some "first"⟩ : Alert),
          ⟨some "warning", some "B", some "second"⟩, ⟨none, some "C", none⟩]).1 =
        [⟨some "critical", some "A", some "first"⟩,
          ⟨some "warning", some "B", some "second"⟩, ⟨none, some "C", none⟩] ∧
      (sliceReverse [(⟨some "burst", some "x"⟩ : Correlation), ⟨some "scan", some "y"⟩]).1 =
        [⟨some "burst", some "x"⟩, ⟨some "scan", some "y"⟩] := by
  have t := lists_rendered_in_reverse refHost
    { freshPage with
      alertsList := some [⟨"rgb(100,116,139)", some "old", "Z", "stale"⟩],
      corrList := some [⟨some "old", some "stale"⟩] }
    { emptyReport with
      alerts := some [⟨some "critical", some "A", some "first"⟩,
        ⟨some "warning", some "B", some "second"⟩, ⟨none, some "C", none⟩],
      correlations := some [⟨some "burst", some "x"⟩, ⟨some "scan", some "y"⟩] }
    ⟨none, none, none, none⟩
    [⟨some "critical", some "A", some "first"⟩,
      ⟨some "warning", some "B", some "second"⟩, ⟨none, some "C", none⟩]
    [⟨some "burst", some "x"⟩, ⟨some "scan", some "y"⟩]
    [⟨"rgb(100,116,139)", some "old", "Z", "stale"⟩] [⟨some "old", some "stale"⟩]
    (by decide) rfl (by decide) rfl rfl rfl rfl
  refine ⟨t.1.trans (by decide), t.2.1.trans (by decide), t.2.2.1, t.2.2.2⟩

theorem appendTimelineItem_valid (h : Host) (node : List TimelineEntry) (ev : TimelineEvent)
    (hv : validTimestamp h ev = true) :
    appendTimelineItem h node ev = node ++ [timelineEntry h ev] := by
  unfold validTimestamp at hv
  unfold appendTimelineItem
  cases hts : ev.timestamp with
  | none => simp [hts] at hv
  | some t =>
    rw [hts] at hv
    by_cases ht : t = ""
    · simp [ht] at hv
    · simp [ht]

theorem foldl_appendTimelineItem (h : Host) (l : List TimelineEvent) (acc : List TimelineEntry)
    (hv : ∀ ev ∈ l, validTimestamp h ev = true) :
    l.foldl (appendTimelineItem h) acc = acc ++ l.map (timelineEntry h) := by
  induction l generalizing acc with
  | nil => simp
  | cons ev rest ih =>
    rw [List.foldl_cons, appendTimelineItem_valid h acc ev (hv ev (List.mem_cons_self _ _)),
      ih _ (fun e he => hv e (List.mem_cons_of_mem _ he))]
    simp

theorem timelineEntries_valid (h : Host) (timeline : List TimelineEvent)
    (hv : ∀ ev ∈ timeline, validTimestamp h ev = true) :
    timelineEntries h timeline =
      ((timeline.drop (timeline.length - min timeline.length 50)).reverse).map
        (timelineEntry h) := by
  have hsub : timeline.length - min timeline.length 50 = timeline.length - 50 := by omega
  unfold timelineEntries sliceLast
  rw [hsub, foldl_appendTimelineItem, List.nil_append]
  intro ev hev
  exact hv ev (List.mem_of_mem_drop (List.mem_reverse.mp hev))

/-- C5: on a timeline of `n` events that all have valid timestamps, a cycle
leaves in the recent-timeline list exactly `min n 50` entries: those of the
last `min n 50` events of the timeline, in reverse order, so that entry `i`
is the one of the event at position `n - 1 - i`. An entry shows the
severity in the severity's colour, the timestamp, the type and the message
of its event. -/
theorem recent_timeline_bound (h : Host) (st : Dashboard) (data : Report) (s : Summary)
    (old : List TimelineEntry) (timeline : List TimelineEvent)
    (hok : data.ok ≠ some false) (hs : data.summary = some s) (hd : canDraw st = true)
    (hl : st.timelineList = some old) (ht : data.timeline = some timeline)
    (hv : ∀ ev ∈ timeline, validTimestamp h ev = true) :
    ∃ entries, (fetchData h st (.json data)).state.timelineList = some entries ∧
      entries.length = min timeline.length 50 ∧
      entries = ((timeline.drop (timeline.length - min timeline.length 50)).reverse).map
        (fun ev => (⟨severityColor h ev.severity, ev.severity, ev.timestamp, ev.type,
          ev.message⟩ : TimelineEntry)) ∧
      ∀ i, i < min timeline.length 50 →
        ∃ ev, timeline[timeline.length - 1 - i]? = some ev ∧
          entries[i]? = some ⟨severityColor h ev.severity, ev.severity, ev.timestamp, ev.type,
            ev.message⟩ := by
  rw [fetchData_json h st data hok]
  obtain ⟨s1, c1, n1, c2, n2, c3, n3, c4, n4, c5, n5, -, -, -, -, -, -, heq⟩ :=
    renderReport_spec h st data (renderReport_completed h st data s hs hd)
  have hlen : (timeline.drop (timeline.length - min timeline.length 50)).length =
      min timeline.length 50 := by
    rw [List.length_drop]
    omega
  refine ⟨_, ?_, ?_, rfl, ?_⟩
  · rw [heq]
    simp only [hl, setChildren, ht, orEmpty]
    rw [timelineEntries_valid h _ hv]
    rfl
  · rw [List.length_map, List.length_reverse, hlen]
  · intro i hi
    have hpos : timeline.length - 1 - i < timeline.length := by omega
    refine ⟨timeline[timeline.length - 1 - i], List.getElem?_eq_getElem hpos, ?_⟩
    rw [List.getElem?_map, List.getElem?_reverse (by rw [hlen]; exact hi), hlen,
      List.getElem?_drop]
    have hidx : timeline.length - min timeline.length 50 + (min timeline.length 50 - 1 - i) =
        timeline.length - 1 - i := by omega
    rw [hidx, List.getElem?_eq_getElem hpos]
    rfl

theorem recent_timeline_bound_witness :
    (sixtyReport.timeline.getD []).map (fun ev => ev.timestamp) =
        [some "2024-01-01T00:00:00Z", some "2024-01-01T00:00:01Z",
          some "2024-01-01T00:00:02Z", some "2024-01-01T00:00:03Z",
          some "2024-01-01T00:00:04Z", some "2024-01-01T00:00:05Z",
          some "2024-01-01T00:00:06Z", some "2024-01-01T00:00:07Z",
          some "2024-01-01T00:00:08Z", some "2024-01-01T00:00:09Z",
          some "2024-01-01T00:00:10Z", some "2024-01-01T00:00:11Z",
          some "2024-01-01T00:00:12Z", some "2024-01-01T00:00:13Z",
          some "2024-01-01T00:00:14Z", some "2024-01-01T00:00:15Z",
          some "2024-01-01T00:00:16Z", some "2024-01-01T00:00:17Z",
          some "2024-01-01T00:00:18Z", some "2024-01-01T00:00:19Z",
          some "2024-01-01T00:00:20Z", some "2024-01-01T00:00:21Z",
          some "2024-01-01T00:00:22Z", some "2024-01-01T00:00:23Z",
          some "2024-01-01T00:00:24Z", some "2024-01-01T00:00:25Z",
          some "2024-01-01T00:00:26Z", some "2024-01-01T00:00:27Z",
          some "2024-01-01T00:00:28Z", some "2024-01-01T00:00:29Z",
          some "2024-01-01T00:00:30Z", some "2024-01-01T00:00:31Z",
          some "2024-01-01T00:00:32Z", some "2024-01-01T00:00:33Z",
          some "2024-01-01T00:00:34Z", some "2024-01-01T00:00:35Z",
          some "2024-01-01T00:00:36Z", some "2024-01-01T00:00:37Z",
          some "2024-01-01T00:00:38Z", some "2024-01-01T00:00:39Z",
          some "2024-01-01T00:00:40Z", some "2024-01-01T00:00:41Z",
          some "2024-01-01T00:00:42Z", some "2024-01-01T00:00:43Z",
          some "2024-01-01T00:00:44Z", some "2024-01-01T00:00:45Z",
          some "2024-01-01T00:00:46Z", some "2024-01-01T00:00:47Z",
          some "2024-01-01T00:00:48Z", some "2024-01-01T00:00:49Z",
          some "2024-01-01T00:00:50Z", some "2024-01-01T00:00:51Z",
          some "2024-01-01T00:00:52Z", some "2024-01-01T00:00:53Z",
          some "2024-01-01T00:00:54Z", some "2024-01-01T00:00:55Z",
          some "2024-01-01T00:00:56Z", some "2024-01-01T00:00:57Z",
          some "2024-01-01T00:00:58Z", some "2024-01-01T00:00:59Z"] ∧
      ∃ entries, (fetchData refHost freshPage (.json sixtyReport)).state.timelineList =
          some entries ∧
        entries.length = 50 ∧
        entries.map (fun e => e.timestamp) =
          [some "2024-01-01T00:00:59Z", some "2024-01-01T00:00:58Z",
          some "2024-01-01T00:00:57Z", some "2024-01-01T00:00:56Z",
          some "2024-01-01T00:00:55Z", some "2024-01-01T00:00:54Z",
          some "2024-01-01T00:00:53Z", some "2024-01-01T00:00:52Z",
          some "2024-01-01T00:00:51Z", some "2024-01-01T00:00:50Z",
          some "2024-01-01T00:00:49Z", some "2024-01-01T00:00:48Z",
          some "2024-01-01T00:00:47Z", some "2024-01-01T00:00:46Z",
          some "2024-01-01T00:00:45Z", some "2024-01-01T00:00:44Z",
          some "2024-01-01T00:00:43Z", some "2024-01-01T00:00:42Z",
          some "2024-01-01T00:00:41Z", some "2024-01-01T00:00:40Z",
          some "2024-01-01T00:00:39Z", some "2024-01-01T00:00:38Z",
          some "2024-01-01T00:00:37Z", some "2024-01-01T00:00:36Z",
          some "2024-01-01T00:00:35Z", some "2024-01-01T00:00:34Z",
          some "2024-01-01T00:00:33Z", some "2024-01-01T00:00:32Z",
          some "2024-01-01T00:00:31Z", some "2024-01-01T00:00:30Z",
          some "2024-01-01T00:00:29Z", some "2024-01-01T00:00:28Z",
          some "2024-01-01T00:00:27Z", some "2024-01-01T00:00:26Z",
          some "2024-01-01T00:00:25Z", some "2024-01-01T00:00:24Z",
          some "2024-01-01T00:00:23Z", some "2024-01-01T00:00:22Z",
          some "2024-01-01T00:00:21Z", some "2024-01-01T00:00:20Z",
          some "2024-01-01T00:00:19Z", some "2024-01-01T00:00:18Z",
          some "2024-01-01T00:00:17Z", some "2024-01-01T00:00:16Z",
          some "2024-01-01T00:00:15Z", some "2024-01-01T00:00:14Z",
          some "2024-01-01T00:00:13Z", some "2024-01-01T00:00:12Z",
          some "2024-01-01T00:00:11Z", some "2024-01-01T00:00:10Z"] ∧
        entries.head? =
          some ⟨"rgb(34,197,94)", some "info", some "2024-01-01T00:00:59Z", some "record", none⟩ ∧
        entries.getLast? =
          some ⟨"rgb(34,197,94)", some "info", some "2024-01-01T00:00:10Z", some "record",
            none⟩ := by
  obtain ⟨entries, h1, -, h3, -⟩ := recent_timeline_bound refHost freshPage sixtyReport
    ⟨none, none, none, none⟩ [] ((List.range 60).map eventAt)
    (by decide) rfl (by decide) rfl rfl (by decide)
  refine ⟨by decide, entries, h1, ?_, ?_, ?_, ?_⟩ <;> subst h3 <;> decide

/-- The chart path drops every event without a valid timestamp. -/
theorem timelinePoints_drop_invalid (h : Host) (timeline : List TimelineEvent)
    (ev : TimelineEvent) (hv : validTimestamp h ev = false) :
    ∀ p ∈ timelinePoints h timeline, p.meta ≠ ev := by
  intro p hp hm
  rw [timelinePoints_eq] at hp
  obtain ⟨ev1, _, hp1⟩ := List.mem_filterMap.mp hp
  have hm1 := (plotPoint_meta h ev1 p hp1).1
  have hev : ev1 = ev := by rw [← hm1, hm]
  subst hev
  rw [plotPoint_eq_none h ev1 hv] at hp1
  cases hp1

/-- A timeline of one valid event and one event with timestamp `null` gives
one plot point and one list entry. -/
theorem timeline_null_dropped :
    (timelinePoints refHost [sampleEvent, nullEvent]).length = 1 ∧
      (timelineEntries refHost [sampleEvent, nullEvent]).length = 1 := by
  decide

/-- C1 fails on the list path: an event whose timestamp is the text
"garbage", which is not a date, gets no plot point but does get an entry in
the recent-timeline list. -/
theorem unparseable_timestamp_listed :
    validTimestamp refHost garbageEvent = false ∧
      timelinePoints refHost [garbageEvent] = [] ∧
      timelineEntries refHost [garbageEvent] = [timelineEntry refHost garbageEvent] ∧
      (fetchData refHost freshPage (.json garbageReport)).completed = true ∧
      (fetchData refHost freshPage (.json garbageReport)).state.timelineChart =
        some ⟨4, []⟩ ∧
      (fetchData refHost freshPage (.json garbageReport)).state.timelineList =
        some [⟨"rgb(34,197,94)", some "info", some "garbage", some "alert", some "m"⟩] := by
  decide

/-- C8 as stated fails: on a report without a summary object, all of whose
collections are therefore absent, the cycle throws after setting the status
text, on a page where every canvas exists; no chart and no list is updated. -/
theorem fetchData_no_summary_aborts :
    bareReport.ok ≠ some false ∧ canDraw freshPage = true ∧
      (fetchData refHost freshPage (.json bareReport)).completed = false ∧
      (fetchData refHost freshPage (.json bareReport)).state =
        { freshPage with lastUpdated := some (.str "-") } ∧
      (fetchData refHost freshPage (.json bareReport)).state.ipsChart = none ∧
      (fetchData refHost freshPage (.json bareReport)).state.timelineChart = none := by
  decide

theorem renderReport_withEmptyDefaults (h : Host) (st : Dashboard) (data : Report) :
    renderReport h st (withEmptyDefaults data) = renderReport h st data := by
  cases hs : data.summary with
  | none => simp [renderReport, withEmptyDefaults, hs]
  | some s => simp [renderReport, withEmptyDefaults, hs, orEmpty]

/-- C8 amended: for a fetched report that does not signal unavailability and
has a summary object, on a page where each chart exists or has its canvas,
the cycle runs to its end whichever of the six collections are absent; it
does what it does on the report with `[]` in place of each absent
collection, so an absent collection gives a chart without data or a list
without entries. -/
theorem fetchData_absent_collections (h : Host) (st : Dashboard) (data : Report) (s : Summary)
    (hok : data.ok ≠ some false) (hs : data.summary = some s) (hd : canDraw st = true) :
    (fetchData h st (.json data)).completed = true ∧
      fetchData h st (.json data) = fetchData h st (.json (withEmptyDefaults data)) ∧
      (s.top_ips = none → ∃ c, (fetchData h st (.json data)).state.ipsChart = some c ∧
        c.labels = [] ∧ c.data = []) ∧
      (s.status_counts = none → ∃ c, (fetchData h st (.json data)).state.statusChart = some c ∧
        c.labels = [] ∧ c.data = []) ∧
      (s.top_urls = none → ∃ c, (fetchData h st (.json data)).state.urlsChart = some c ∧
        c.labels = [] ∧ c.data = []) ∧
      (data.alerts = none →
        (∃ c, (fetchData h st (.json data)).state.sevChart = some c ∧
          c.labels = [] ∧ c.data = []) ∧
        (fetchData h st (.json data)).state.alertsList = setChildren st.alertsList []) ∧
      (data.correlations = none →
        (fetchData h st (.json data)).state.corrList = setChildren st.corrList []) ∧
      (data.timeline = none →
        (∃ c, (fetchData h st (.json data)).state.timelineChart = some c ∧ c.data = []) ∧
        (fetchData h st (.json data)).state.timelineList = setChildren st.timelineList []) := by
  have hok2 : (withEmptyDefaults data).ok ≠ some false := hok
  rw [fetchData_json h st data hok, fetchData_json h st _ hok2, renderReport_withEmptyDefaults]
  have hc := renderReport_completed h st data s hs hd
  obtain ⟨s1, c1, n1, c2, n2, c3, n3, c4, n4, c5, n5, hs1, hb1, hb2, hb3, hb4, hb5, heq⟩ :=
    renderReport_spec h st data hc
  have hss : s1 = s := by
    rw [hs] at hs1
    exact (Option.some.inj hs1).symm
  subst hss
  refine ⟨hc, rfl, ?_, ?_, ?_, ?_, ?_, ?_⟩
  · intro hn
    rw [hn] at hb1
    exact ⟨c1, by rw [heq], (bindChart_labels hb1).1, (bindChart_labels hb1).2⟩
  · intro hn
    rw [hn] at hb2
    exact ⟨c2, by rw [heq], (bindChart_labels hb2).1, (bindChart_labels hb2).2⟩
  · intro hn
    rw [hn] at hb3
    exact ⟨c3, by rw [heq], (bindChart_labels hb3).1, (bindChart_labels hb3).2⟩
  · intro hn
    rw [hn] at hb4
    exact ⟨⟨c4, by rw [heq], (bindChart_labels hb4).1, (bindChart_labels hb4).2⟩,
      by rw [heq, hn]; rfl⟩
  · intro hn
    rw [heq, hn]
    rfl
  · intro hn
    rw [hn] at hb5
    exact ⟨⟨c5, by rw [heq], bindTimelineChart_data hb5⟩, by rw [heq, hn]; rfl⟩

theorem fetchData_absent_collections_witness :
    (fetchData refHost freshPage (.json emptyReport)).completed = true ∧
      (∃ c, (fetchData refHost freshPage (.json emptyReport)).state.ipsChart = some c ∧
        c.labels = [] ∧ c.data = []) ∧
      (∃ c, (fetchData refHost freshPage (.json emptyReport)).state.sevChart = some c ∧
        c.labels = [] ∧ c.data = []) ∧
      (fetchData refHost freshPage (.json emptyReport)).state.alertsList = some [] ∧
      (fetchData refHost freshPage (.json emptyReport)).state.corrList = some [] ∧
      (∃ c, (fetchData refHost freshPage (.json emptyReport)).state.timelineChart = some c ∧
        c.data = []) ∧
      (fetchData refHost freshPage (.json emptyReport)).state.timelineList = some [] :=
  have t := fetchData_absent_collections refHost freshPage emptyReport ⟨none, none, none, none⟩
    (by decide) rfl (by decide)
  ⟨t.1, t.2.2.1 rfl, (t.2.2.2.2.2.1 rfl).1, (t.2.2.2.2.2.1 rfl).2, t.2.2.2.2.2.2.1 rfl,
    (t.2.2.2.2.2.2.2 rfl).1, (t.2.2.2.2.2.2.2 rfl).2⟩

theorem Obj.get_map_of_mem (K : List String) (f : String → Nat) (x : String) (hx : x ∈ K) :
    Obj.get (K.map (fun k => (k, f k))) x = some (f x) := by
  induction K with
  | nil => cases hx
  | cons k rest ih =>
    by_cases hk : k = x
    · simp [Obj.get, hk]
    · have hx1 : x ∈ rest := by
        rcases List.mem_cons.mp hx with h1 | h1
        · exact absurd h1.symm hk
        · exact h1
      simp only [List.map_cons, Obj.get, hk, if_false]
      exact ih hx1

theorem Obj.get_map_of_not_mem (K : List String) (f : String → Nat) (x : String)
    (hx : x ∉ K) : Obj.get (K.map (fun k => (k, f k))) x = none := by
  induction K with
  | nil => rfl
  | cons k rest ih =>
    have hk : ¬ k = x := fun e => hx (e ▸ List.mem_cons_self _ _)
    simp only [List.map_cons, Obj.get, hk, if_false]
    exact ih (fun hm => hx (List.mem_cons_of_mem _ hm))

theorem Obj.set_map_of_mem (K : List String) (f : String → Nat) (x : String) (v : Nat)
    (hx : x ∈ K) (hn : K.Nodup) :
    Obj.set (K.map (fun k => (k, f k))) x v =
      K.map (fun k => (k, if k = x then v else f k)) := by
  induction K with
  | nil => cases hx
  | cons k rest ih =>
    obtain ⟨hk1, hn1⟩ := List.nodup_cons.mp hn
    by_cases hk : k = x
    · subst hk
      simp only [List.map_cons, Obj.set, if_true, List.cons.injEq, true_and]
      apply List.map_congr_left
      intro a ha
      have : ¬ a = k := fun e => hk1 (e ▸ ha)
      simp [this]
    · have hx1 : x ∈ rest := by
        rcases List.mem_cons.mp hx with h1 | h1
        · exact absurd h1.symm hk
        · exact h1
      simp only [List.map_cons, Obj.set, hk, if_false, List.cons.injEq, true_and]
      exact ih hx1 hn1

theorem Obj.set_map_of_not_mem (K : List String) (f : String → Nat) (x : String) (v : Nat)
    (hx : x ∉ K) :
    Obj.set (K.map (fun k => (k, f k))) x v = K.map (fun k => (k, f k)) ++ [(x, v)] := by
  induction K with
  | nil => rfl
  | cons k rest ih =>
    have hk : ¬ k = x := fun e => hx (e ▸ List.mem_cons_self _ _)
    simp only [List.map_cons, Obj.set, hk, if_false, List.cons_append, List.cons.injEq, true_and]
    exact ih (fun hm => hx (List.mem_cons_of_mem _ hm))

/-- The table built by counting the members of `l` one after the other has
one property per distinct member, created in order of first occurrence, and
its value is the number of occurrences. -/
theorem tally_spec (l : List String) :
    ∃ K, InFirstOccurrenceOrder l K ∧
      l.foldl (fun (o : Obj) x => Obj.set o x (orZero (Obj.get o x) + 1)) [] =
        K.map (fun k => (k, l.count k)) := by
  induction l using List.reverseRecOn with
  | nil => exact ⟨[], ⟨List.nodup_nil, by simp, List.Pairwise.nil⟩, rfl⟩
  | append_singleton l x ih =>
    obtain ⟨K, ⟨hnd, hmem, hord⟩, hK⟩ := ih
    rw [List.foldl_append, List.foldl_cons, List.foldl_nil, hK]
    by_cases hx : x ∈ l
    · have hxK : x ∈ K := (hmem x).mpr hx
      refine ⟨K, ⟨hnd, ?_, ?_⟩, ?_⟩
      · intro y
        rw [hmem y]
        simp only [List.mem_append, List.mem_singleton]
        constructor
        · exact fun hy => Or.inl hy
        · rintro (hy | hy)
          · exact hy
          · exact hy ▸ hx
      · have hcongr : K.map (fun y => (l ++ [x]).indexOf y) = K.map (fun y => l.indexOf y) := by
          apply List.map_congr_left
          intro a ha
          exact List.indexOf_append_of_mem ((hmem a).mp ha)
        rw [hcongr]
        exact hord
      · rw [Obj.get_map_of_mem K _ x hxK, Obj.set_map_of_mem K _ x _ hxK hnd]
        apply List.map_congr_left
        intro a _
        by_cases hax : a = x
        · subst hax
          simp [orZero]
        · have hxa : ¬ x = a := fun e => hax e.symm
          simp [hax, hxa, List.count_singleton]
    · have hxK : x ∉ K := fun hk => hx ((hmem x).mp hk)
      refine ⟨K ++ [x], ⟨?_, ?_, ?_⟩, ?_⟩
      · rw [List.nodup_append]
        refine ⟨hnd, List.nodup_singleton x, ?_⟩
        intro a ha hb
        rw [List.mem_singleton] at hb
        exact hxK (hb ▸ ha)
      · intro y
        simp only [List.mem_append, List.mem_singleton, hmem y]
      · rw [List.map_append, List.pairwise_append]
        refine ⟨?_, by simp, ?_⟩
        · have hcongr : K.map (fun y => (l ++ [x]).indexOf y) =
              K.map (fun y => l.indexOf y) := by
            apply List.map_congr_left
            intro a ha
            exact List.indexOf_append_of_mem ((hmem a).mp ha)
          rw [hcongr]
          exact hord
        · intro i hi j hj
          obtain ⟨a, ha, rfl⟩ := List.mem_map.mp hi
          simp only [List.map_cons, List.map_nil, List.mem_singleton] at hj
          subst hj
          rw [List.indexOf_append_of_mem ((hmem a).mp ha),
            List.indexOf_append_of_not_mem hx]
          have := List.indexOf_lt_length.mpr ((hmem a).mp ha)
          omega
      · rw [Obj.get_map_of_not_mem K _ x hxK, Obj.set_map_of_not_mem K _ x _ hxK,
          List.map_append]
        congr 1
        · apply List.map_congr_left
          intro a ha
          have hax : ¬ x = a := fun e => hxK (e ▸ ha)
          simp [List.count_singleton, hax]
        · simp [orZero, List.count_eq_zero_of_not_mem hx]

theorem sevCounts_eq (h : Host) (alerts : List Alert) :
    sevCounts h alerts =
      (alerts.map (severityKey h)).foldl
        (fun (o : Obj) x => Obj.set o x (orZero (Obj.get o x) + 1)) [] := by
  rw [List.foldl_map]
  rfl

theorem insertByIndex_perm (p : String × Nat) (ps : List (String × Nat)) :
    (insertByIndex p ps).Perm (p :: ps) := by
  induction ps with
  | nil => exact List.Perm.refl _
  | cons q rest ih =>
    unfold insertByIndex
    by_cases hle : orZero (arrayIndex p.1) ≤ orZero (arrayIndex q.1)
    · simp only [hle, if_true]
      exact List.Perm.refl _
    · simp only [hle, if_false]
      exact (List.Perm.cons q ih).trans (List.Perm.swap p q rest)

theorem sortByIndex_perm (ps : List (String × Nat)) : (sortByIndex ps).Perm ps := by
  induction ps with
  | nil => exact List.Perm.refl _
  | cons p rest ih =>
    unfold sortByIndex
    exact (insertByIndex_perm p (sortByIndex rest)).trans (List.Perm.cons p ih)

theorem insertByIndex_sorted (p : String × Nat) (ps : List (String × Nat))
    (hs : List.Pairwise (fun a b : String × Nat =>
      orZero (arrayIndex a.1) ≤ orZero (arrayIndex b.1)) ps) :
    List.Pairwise (fun a b : String × Nat =>
      orZero (arrayIndex a.1) ≤ orZero (arrayIndex b.1)) (insertByIndex p ps) := by
  induction ps with
  | nil => simp [insertByIndex]
  | cons q rest ih =>
    obtain ⟨hq, hrest⟩ := List.pairwise_cons.mp hs
    unfold insertByIndex
    by_cases hle : orZero (arrayIndex p.1) ≤ orZero (arrayIndex q.1)
    · simp only [hle, if_true]
      refine List.pairwise_cons.mpr ⟨?_, hs⟩
      intro a ha
      rcases List.mem_cons.mp ha with h1 | h1
      · rw [h1]
        exact hle
      · exact Nat.le_trans hle (hq a h1)
    · simp only [hle, if_false]
      refine List.pairwise_cons.mpr ⟨?_, ih hrest⟩
      intro a ha
      rcases List.mem_cons.mp ((insertByIndex_perm p rest).mem_iff.mp ha) with h1 | h1
      · rw [h1]
        omega
      · exact hq a h1

theorem sortByIndex_sorted (ps : List (String × Nat)) :
    List.Pairwise (fun a b : String × Nat =>
      orZero (arrayIndex a.1) ≤ orZero (arrayIndex b.1)) (sortByIndex ps) := by
  induction ps with
  | nil => simp [sortByIndex]
  | cons p rest ih =>
    unfold sortByIndex
    exact insertByIndex_sorted p _ ih

/-- The labels and values of the severity pie, read off the severity table:
array-index labels first, ascending, then the other labels in order of first
occurrence; each value is the number of alerts under its label. -/
theorem sevCounts_keys_values (h : Host) (alerts : List Alert) :
    (Obj.keys (sevCounts h alerts)).Nodup ∧
      (∀ x, x ∈ Obj.keys (sevCounts h alerts) ↔ x ∈ alerts.map (severityKey h)) ∧
      Obj.values (sevCounts h alerts) =
        (Obj.keys (sevCounts h alerts)).map (fun x => (alerts.map (severityKey h)).count x) ∧
      (∃ A B, Obj.keys (sevCounts h alerts) = A ++ B ∧
        (∀ x ∈ A, isArrayIndex x = true) ∧ (∀ x ∈ B, isArrayIndex x = false) ∧
        List.Pairwise (fun i j : Nat => i ≤ j) (A.map (fun x => orZero (arrayIndex x))) ∧
        List.Pairwise (fun i j : Nat => i < j)
          (B.map (fun x => (alerts.map (severityKey h)).indexOf x))) ∧
      ((∀ x ∈ alerts.map (severityKey h), isArrayIndex x = false) →
        InFirstOccurrenceOrder (alerts.map (severityKey h)) (Obj.keys (sevCounts h alerts))) := by
  obtain ⟨K, ⟨hnd, hmem, hord⟩, hK⟩ := tally_spec (alerts.map (severityKey h))
  rw [sevCounts_eq, hK]
  generalize alerts.map (severityKey h) = l at *
  have hI : (K.map (fun k => (k, l.count k))).filter (fun p => isArrayIndex p.1) =
      (K.filter isArrayIndex).map (fun k => (k, l.count k)) := by
    rw [List.filter_map]
    rfl
  have hN : ((K.map (fun k => (k, l.count k))).filter (fun p => !isArrayIndex p.1)).map Prod.fst =
      K.filter (fun x => !isArrayIndex x) := by
    rw [List.filter_map, List.map_map]
    simp [Function.comp_def]
  have hA : ((sortByIndex ((K.filter isArrayIndex).map (fun k => (k, l.count k)))).map
      Prod.fst).Perm (K.filter isArrayIndex) := by
    have h1 := (sortByIndex_perm ((K.filter isArrayIndex).map (fun k => (k, l.count k)))).map
      Prod.fst
    simpa [List.map_map, Function.comp_def] using h1
  have hkeys : Obj.keys (K.map (fun k => (k, l.count k))) =
      (sortByIndex ((K.filter isArrayIndex).map (fun k => (k, l.count k)))).map Prod.fst ++
        K.filter (fun x => !isArrayIndex x) := by
    unfold Obj.keys Obj.entries
    rw [List.map_append, hI, hN]
  have hperm : (Obj.keys (K.map (fun k => (k, l.count k)))).Perm K := by
    rw [hkeys]
    exact (List.Perm.append_right _ hA).trans (List.filter_append_perm isArrayIndex K)
  refine ⟨hperm.nodup_iff.mpr hnd, ?_, ?_, ?_, ?_⟩
  · intro x
    rw [hperm.mem_iff, hmem x]
  · unfold Obj.values Obj.keys
    rw [List.map_map]
    apply List.map_congr_left
    intro p hp
    have hp1 : p ∈ K.map (fun k => (k, l.count k)) := by
      unfold Obj.entries at hp
      rcases List.mem_append.mp hp with h1 | h1
      · exact List.mem_of_mem_filter ((sortByIndex_perm _).mem_iff.mp h1)
      · exact List.mem_of_mem_filter h1
    obtain ⟨k, _, rfl⟩ := List.mem_map.mp hp1
    rfl
  · refine ⟨_, _, hkeys, ?_, ?_, ?_, ?_⟩
    · intro x hx
      exact (List.mem_filter.mp (hA.mem_iff.mp hx)).2
    · intro x hx
      simpa using (List.mem_filter.mp hx).2
    · rw [List.map_map]
      exact List.pairwise_map.mpr (sortByIndex_sorted _)
    · exact List.Pairwise.sublist ((List.filter_sublist K).map _) hord
  · intro hno
    have hKI : K.filter isArrayIndex = [] := by
      rw [List.filter_eq_nil_iff]
      intro a ha
      simp [hno a ((hmem a).mp ha)]
    have hKN : K.filter (fun x => !isArrayIndex x) = K := by
      rw [List.filter_eq_self]
      intro a ha
      simp [hno a ((hmem a).mp ha)]
    rw [hkeys, hKI, hKN]
    exact ⟨hnd, hmem, hord⟩

/-- C7 as stated fails: with alerts of severities "high" then "1" the pie
lists "1" before "HIGH", which is not the order of first occurrence; and an
alert whose severity is the empty string is counted under UNKNOWN, not under
its upper-cased severity. -/
theorem severity_pie_numeric_label_first :
    (fetchData refHost freshPage (.json numericReport)).state.sevChart =
        some ⟨3, "pie", none, ["1", "HIGH"], [1, 1]⟩ ∧
      (orEmpty numericReport.alerts).map (statedKey refHost) = ["HIGH", "1"] ∧
      ¬ InFirstOccurrenceOrder ["HIGH", "1"] ["1", "HIGH"] ∧
      Obj.keys (sevCounts refHost [⟨some "", none, none⟩]) = ["UNKNOWN"] ∧
      statedKey refHost ⟨some "", none, none⟩ = "" := by
  refine ⟨by decide, by decide, ?_, by decide, by decide⟩
  rintro ⟨-, -, hord⟩
  revert hord
  decide

/-- C7 amended: the labels of the severity pie are the distinct upper-cased
severities of the alerts, an absent or empty severity counted as UNKNOWN;
the labels that are array-index numerals come first in ascending numeric
order and the others follow in order of first occurrence; the value at each
position is the number of alerts with that label. When no label is an
array-index numeral the labels are in order of first occurrence. -/
theorem severity_pie_labels (h : Host) (st : Dashboard) (data : Report) (s : Summary)
    (hok : data.ok ≠ some false) (hs : data.summary = some s) (hd : canDrawBars st = true) :
    ∃ c, (fetchData h st (.json data)).state.sevChart = some c ∧
      c.labels.Nodup ∧
      (∀ x, x ∈ c.labels ↔ x ∈ (orEmpty data.alerts).map (severityKey h)) ∧
      c.data = c.labels.map (fun x => ((orEmpty data.alerts).map (severityKey h)).count x) ∧
      (∃ A B, c.labels = A ++ B ∧
        (∀ x ∈ A, isArrayIndex x = true) ∧ (∀ x ∈ B, isArrayIndex x = false) ∧
        List.Pairwise (fun i j : Nat => i ≤ j) (A.map (fun x => orZero (arrayIndex x))) ∧
        List.Pairwise (fun i j : Nat => i < j)
          (B.map (fun x => ((orEmpty data.alerts).map (severityKey h)).indexOf x))) ∧
      ((∀ x ∈ (orEmpty data.alerts).map (severityKey h), isArrayIndex x = false) →
        InFirstOccurrenceOrder ((orEmpty data.alerts).map (severityKey h)) c.labels) := by
  rw [fetchData_json h st data hok]
  obtain ⟨⟨c, hc, hl, hv⟩, -, -⟩ := renderReport_bars h st data s hs hd
  refine ⟨c, hc, ?_⟩
  rw [hl, hv]
  exact sevCounts_keys_values h (orEmpty data.alerts)

theorem severity_pie_labels_witness :
    ∃ c, (fetchData refHost freshPage (.json sampleReport)).state.sevChart = some c ∧
      c.labels = ["CRITICAL", "WARNING", "UNKNOWN"] ∧ c.data = [1, 1, 1] ∧
      InFirstOccurrenceOrder ((orEmpty sampleReport.alerts).map (severityKey refHost))
        c.labels := by
  obtain ⟨c, hc, -, -, -, -, hfirst⟩ := severity_pie_labels refHost freshPage sampleReport
    ⟨some 12, some [("1.2.3.4", 10), ("5.6.7.8", 2)], some [("200", 11), ("404", 1)],
      some [("/", 7), ("/login", 5)]⟩ (by decide) rfl (by decide)
  have hc1 : (fetchData refHost freshPage (.json sampleReport)).state.sevChart =
      some ⟨3, "pie", none, ["CRITICAL", "WARNING", "UNKNOWN"], [1, 1, 1]⟩ := by decide
  have hcc : c = ⟨3, "pie", none, ["CRITICAL", "WARNING", "UNKNOWN"], [1, 1, 1]⟩ :=
    Option.some.inj (hc.symm.trans hc1)
  exact ⟨c, hc, by rw [hcc], by rw [hcc], hfirst (by decide)⟩

end InsightLog
